import Mathlib

/-!
Shallow embedding of the POC-humanexe interactive physics demo
(ragdoll character dragged by the head, throwable spawned items,
trash disposal, collision-triggered one-shot animations).

Numeric fields of the JavaScript source are modelled over `ℚ`
(the source's float arithmetic has no overflow-relevant behaviour here);
`Math.sqrt` comparisons of the form `Math.sqrt d2 < thr` are embedded
sqrt-free as `0 < thr ∧ d2 < thr ^ 2`, which is equivalent for the
nonnegative radicands produced by the source (sums of squares).
The quaternion slerp of `recoverUpright` is embedded over `ℝ`
because it uses transcendental functions.
-/

namespace HumanExe

/-- 3D vector over ℚ, mirroring THREE.Vector3 / cannon-es Vec3 fields. -/
structure V3 where
  x : ℚ
  y : ℚ
  z : ℚ
deriving DecidableEq, Repr

/-- THREE.MathUtils.clamp(value, min, max) = Math.max(min, Math.min(max, value)). -/
def clamp (v lo hi : ℚ) : ℚ := max lo (min hi v)

/-- Squared euclidean norm of a vector; `v.length()` in the source is `sqrt (sqNorm v)`. -/
def sqNorm (v : V3) : ℚ := v.x ^ 2 + v.y ^ 2 + v.z ^ 2

/-- Squared distance between two points; `a.distanceTo(b)` is `sqrt (distSq a b)`. -/
def distSq (a b : V3) : ℚ :=
  (a.x - b.x) ^ 2 + (a.y - b.y) ^ 2 + (a.z - b.z) ^ 2

/-- Sqrt-free embedding of the source comparison `Math.sqrt d2 < thr`
(for `0 ≤ d2`, as always holds for the sums of squares the source feeds it):
`sqrt d2 < thr ↔ 0 < thr ∧ d2 < thr ^ 2`. -/
def sqrtLt (d2 thr : ℚ) : Bool :=
  decide (0 < thr) && decide (d2 < thr ^ 2)

/-- cannon-es `Vec3.scale(s, target)`: componentwise scaling. -/
def scaleV (s : ℚ) (v : V3) : V3 := ⟨s * v.x, s * v.y, s * v.z⟩

/-- Position Y du sol (`GROUND_Y` in App.jsx / part_000). -/
def GROUND_Y : ℚ := -1

/-- Décalage vertical de la tête (`HEAD_OFFSET_Y`). -/
def HEAD_OFFSET_Y : ℚ := 0.6

/-! ## Character body and boundary clamp (App.jsx / part_000) -/

/-- The fields of the character's cannon-es body that the controller code
reads and writes (position, velocity, mass). -/
structure CharBody where
  pos : V3
  vel : V3
  mass : ℚ
deriving DecidableEq, Repr

/-- The post-step z re-pin `characterBody.position.z = 0` in `animate`. -/
def pinZ (b : CharBody) : CharBody :=
  { b with pos := { b.pos with z := 0 } }

/-- `clampCharacterWithinBounds` (App.jsx lines 413-451, part_000 lines 370-404):
clamps x/y into a margin-adjusted rectangle derived from the view bounds and
the model size, zeroing the corresponding velocity component whenever the
clamp changed the position. -/
def clampCharacterWithinBounds (halfW halfH halfModelW modelHeight : ℚ)
    (b : CharBody) : CharBody :=
  let bodyHalfHeight : ℚ := 0.5
  let minX := -halfW + halfModelW * 0.5
  let maxX := halfW - halfModelW * 0.5
  let minY := GROUND_Y + bodyHalfHeight
  let maxY := halfH - modelHeight / 4
  let clampedX := clamp b.pos.x minX maxX
  let clampedY := clamp b.pos.y minY maxY
  let b1 :=
    if clampedX ≠ b.pos.x then
      { b with pos := { b.pos with x := clampedX }, vel := { b.vel with x := 0 } }
    else b
  if clampedY ≠ b1.pos.y then
    { b1 with pos := { b1.pos with y := clampedY }, vel := { b1.vel with y := 0 } }
  else b1

/-! ## Spawned items (ButtonAddItem.jsx) -/

/-- cannon-es body type toggle used by the item drag code. -/
inductive BodyType
  | dynamic
  | kinematic
deriving DecidableEq, Repr

/-- The fields of a spawned item's cannon-es body touched by the source. -/
structure ItemBody where
  pos : V3
  vel : V3
  angVel : V3
  mass : ℚ
  btype : BodyType
deriving DecidableEq, Repr

/-- The per-item record tracked in the shared `spawnedItems` list
(`itemData` in createSpawnedItem), restricted to the fields the embedded
operations read or write. -/
structure ItemState where
  body : ItemBody
  size : V3
  useSpring : Bool
  isBeingDragged : Bool
  desiredX : ℚ
  desiredY : ℚ
  springStiffness : ℚ
  springDamping : ℚ
deriving DecidableEq, Repr

/-- The per-item block of `animate` (part_000 lines 685-713): optional spring
force toward (desiredX, desiredY) when `useSpring && !isBeingDragged`, then
the z-axis lock `position.z = 0; velocity.z = 0; angularVelocity.z = 0`.
(The mesh-from-body visual sync that follows touches no body state.) -/
def itemFrameUpdate (dt : ℚ) (it : ItemState) : ItemState :=
  let it1 :=
    if it.useSpring && !it.isBeingDragged then
      let diffX := it.desiredX - it.body.pos.x
      let diffY := it.desiredY - it.body.pos.y
      let forceX := diffX * it.springStiffness - it.body.vel.x * it.springDamping
      let forceY := diffY * it.springStiffness - it.body.vel.y * it.springDamping
      let vel1 := { it.body.vel with
                    x := it.body.vel.x + forceX / it.body.mass * dt,
                    y := it.body.vel.y + forceY / it.body.mass * dt }
      let body1 := { it.body with vel := vel1 }
      { it with body := body1, desiredX := body1.pos.x, desiredY := body1.pos.y }
    else it
  { it1 with body :=
      { it1.body with
        pos := { it1.body.pos with z := 0 },
        vel := { it1.body.vel with z := 0 },
        angVel := { it1.body.angVel with z := 0 } } }

/-- `clampItemWithinBounds` (ButtonAddItem.jsx lines 209-246): rectangle clamp
with a partial energy-reducing reflection (`velocity *= -0.4`) on each axis,
then the z lock `position.z = 0; velocity.z = 0`. -/
def clampItemWithinBounds (halfW halfH : ℚ) (it : ItemState) : ItemState :=
  let halfItemW := it.size.x / 2
  let bodyHalfHeight := it.size.y / 2
  let minX := -halfW + halfItemW * 0.5
  let maxX := halfW - halfItemW * 0.5
  let minY := GROUND_Y + bodyHalfHeight
  let maxY := halfH - it.size.y / 4
  let b := it.body
  let b1 :=
    if b.pos.x < minX then
      { b with pos := { b.pos with x := minX }, vel := { b.vel with x := b.vel.x * (-0.4) } }
    else if b.pos.x > maxX then
      { b with pos := { b.pos with x := maxX }, vel := { b.vel with x := b.vel.x * (-0.4) } }
    else b
  let b2 :=
    if b1.pos.y < minY then
      { b1 with pos := { b1.pos with y := minY }, vel := { b1.vel with y := b1.vel.y * (-0.4) } }
    else if b1.pos.y > maxY then
      { b1 with pos := { b1.pos with y := maxY }, vel := { b1.vel with y := b1.vel.y * (-0.4) } }
    else b1
  let b3 := { b2 with pos := { b2.pos with z := 0 }, vel := { b2.vel with z := 0 } }
  { it with body := b3 }

/-! ## Spring-damper limb poser (part_000 lines 594-656) -/

/-- Per-limb-pair spring record (`armSpringBottom` / `armSpringTop`). -/
structure SpringState where
  angleZ : ℚ
  velZ : ℚ
  angleX : ℚ
  velX : ℚ
deriving DecidableEq, Repr

/-- `MAX_ARM_ANGLE` from the limb-spring block. -/
def MAX_ARM_ANGLE : ℚ := 1.2

/-- Z-axis target: `clamp(-velocity.x * 0.5, -MAX_ARM_ANGLE, MAX_ARM_ANGLE)`. -/
def armTargetZ (vx : ℚ) : ℚ := clamp (-vx * 0.5) (-MAX_ARM_ANGLE) MAX_ARM_ANGLE

/-- X-axis target: `clamp(velocity.y * 0.3, -MAX_ARM_ANGLE, MAX_ARM_ANGLE)`. -/
def armTargetX (vy : ℚ) : ℚ := clamp (vy * 0.3) (-MAX_ARM_ANGLE) MAX_ARM_ANGLE

/-- One 2-axis spring update as written in `animate`:
`f = (target - angle) * stiffness - vel * damping; vel += f * dt;
angle += vel * dt; angle = clamp(angle, -MAX_ARM_ANGLE, MAX_ARM_ANGLE)`,
performed for the Z axis and then the X axis. -/
def armSpringUpdate (stiffness damping dt targetZ targetX : ℚ)
    (s : SpringState) : SpringState :=
  let fZ := (targetZ - s.angleZ) * stiffness - s.velZ * damping
  let velZ := s.velZ + fZ * dt
  let angleZ := clamp (s.angleZ + velZ * dt) (-MAX_ARM_ANGLE) MAX_ARM_ANGLE
  let fX := (targetX - s.angleX) * stiffness - s.velX * damping
  let velX := s.velX + fX * dt
  let angleX := clamp (s.angleX + velX * dt) (-MAX_ARM_ANGLE) MAX_ARM_ANGLE
  { angleZ := angleZ, velZ := velZ, angleX := angleX, velX := velX }

/-- The whole limb-spring tick: both parameter sets
(`BOT_STIFFNESS = 45, BOT_DAMPING = 6`; `TOP_STIFFNESS = 30, TOP_DAMPING = 4`)
driven by the body-velocity-derived targets. -/
def limbSpringTick (dt vx vy : ℚ) (bot top : SpringState) :
    SpringState × SpringState :=
  let targetZ := armTargetZ vx
  let targetX := armTargetX vy
  (armSpringUpdate 45 6 dt targetZ targetX bot,
   armSpringUpdate 30 4 dt targetZ targetX top)

/-! ## Helper lemmas about clamp -/

theorem clamp_le_hi {v lo hi : ℚ} (h : lo ≤ hi) : clamp v lo hi ≤ hi := by
  unfold clamp
  exact max_le h (min_le_left _ _)

theorem lo_le_clamp (v lo hi : ℚ) : lo ≤ clamp v lo hi := le_max_left _ _

theorem abs_clamp_le {v m : ℚ} (h : 0 ≤ m) : |clamp v (-m) m| ≤ m := by
  rw [abs_le]
  exact ⟨lo_le_clamp v (-m) m, clamp_le_hi (by linarith)⟩

theorem clamp_idem (v lo hi : ℚ) : clamp (clamp v lo hi) lo hi = clamp v lo hi := by
  unfold clamp
  rcases le_total lo (min hi v) with h | h
  · rw [max_eq_right h, min_eq_right (min_le_left hi v), max_eq_right h]
  · rw [max_eq_left h]
    rcases le_total lo hi with h2 | h2
    · rw [min_eq_right h2, max_eq_left le_rfl]
    · rw [min_eq_left h2, max_eq_left h2]

/-! ## C4: z-lock invariant -/

/-- C4: On every tick, after the post-step z-pin and the boundary clamp the
character body's `position.z` equals 0, and after the per-tick item update
and item clamp every spawned item's body has `position.z = 0` and
`velocity.z = 0`: all dynamic entities stay on the plane z = 0. -/
theorem C4_z_lock (halfW halfH halfModelW modelHeight dt ihW ihH : ℚ)
    (b : CharBody) (it : ItemState) :
    (clampCharacterWithinBounds halfW halfH halfModelW modelHeight (pinZ b)).pos.z = 0
    ∧ (clampItemWithinBounds ihW ihH (itemFrameUpdate dt it)).body.pos.z = 0
    ∧ (clampItemWithinBounds ihW ihH (itemFrameUpdate dt it)).body.vel.z = 0 := by
  refine ⟨?_, ?_, ?_⟩
  · unfold clampCharacterWithinBounds pinZ
    dsimp only
    split <;> split <;> rfl
  · unfold clampItemWithinBounds
    rfl
  · unfold clampItemWithinBounds
    rfl

/-! ## C5: limb-spring angle bound -/

/-- C5: For every limb-spring tick and every input, after the update's final
clamp both spring angles of both parameter sets satisfy
`|angleZ| ≤ MAX_ARM_ANGLE` and `|angleX| ≤ MAX_ARM_ANGLE` (MAX_ARM_ANGLE = 1.2),
the update being target computation, spring acceleration, Euler integration,
then the clamp. -/
theorem C5_spring_angle_bound (dt vx vy : ℚ) (bot top : SpringState) :
    |(limbSpringTick dt vx vy bot top).1.angleZ| ≤ MAX_ARM_ANGLE
    ∧ |(limbSpringTick dt vx vy bot top).1.angleX| ≤ MAX_ARM_ANGLE
    ∧ |(limbSpringTick dt vx vy bot top).2.angleZ| ≤ MAX_ARM_ANGLE
    ∧ |(limbSpringTick dt vx vy bot top).2.angleX| ≤ MAX_ARM_ANGLE := by
  have hm : (0 : ℚ) ≤ MAX_ARM_ANGLE := by norm_num [MAX_ARM_ANGLE]
  unfold limbSpringTick armSpringUpdate
  exact ⟨abs_clamp_le hm, abs_clamp_le hm, abs_clamp_le hm, abs_clamp_le hm⟩

/-! ## C1: body controller state machine (part_000 lines 417-448, 490-494, 558-567) -/

/-- Énumération des états possibles du corps (`BoneState` in the source). -/
inductive BoneState
  | physics
  | drag
  | recover
deriving DecidableEq, Repr

/-- The controller's mutable interaction state: `boneState` plus the
`isDragging` flag the pointer handlers consult. -/
structure CtrlState where
  boneState : BoneState
  isDragging : Bool
deriving DecidableEq, Repr

/-- State effect of `onMouseDown` (part_000 lines 417-448): if the head
hit-test fails it returns early; otherwise it sets `isDragging = true` and
`boneState = DRAG` regardless of the current state. `hit` is the Boolean
outcome of `isOverHead` (a raycast against the loaded mesh). -/
def onMouseDownState (hit : Bool) (s : CtrlState) : CtrlState :=
  if hit then { boneState := .drag, isDragging := true } else s

/-- State effect of `onMouseUp` (part_000 lines 490-494): only acts while
`isDragging`, in which case it clears the flag and enters RECOVER. -/
def onMouseUpState (s : CtrlState) : CtrlState :=
  if s.isDragging then { boneState := .recover, isDragging := false } else s

/-- State effect of the RECOVER branch of `animate` (part_000 lines 558-567):
`recoverUpright` first scales the body's linear velocity by 0.96 and its
angular velocity by 0.92, then the branch returns to PHYSICS when both
(scaled) vector lengths are below 0.05. `vel`/`angVel` are the body's
velocities at the start of the frame. -/
def recoverTickState (vel angVel : V3) (s : CtrlState) : CtrlState :=
  if s.boneState = .recover then
    if sqrtLt (sqNorm (scaleV 0.96 vel)) 0.05
        && sqrtLt (sqNorm (scaleV 0.92 angVel)) 0.05 then
      { s with boneState := .physics }
    else s
  else s

/-- The input events that can change `boneState`. -/
inductive Event
  | pointerDown (hit : Bool)
  | pointerUp
  | frame (vel angVel : V3)

/-- One controller step: dispatch of the three handlers above. -/
def ctrlStep (s : CtrlState) : Event → CtrlState
  | .pointerDown hit => onMouseDownState hit s
  | .pointerUp => onMouseUpState s
  | .frame v w => recoverTickState v w s

/-- The transition relation the code actually admits (for the amended claim):
like the claimed one but with the additional transition RECOVER → DRAG on a
pointer-down whose head hit-test succeeds, since `onMouseDown` does not
consult the current state. -/
def allowedTransition (s s' : CtrlState) (e : Event) : Prop :=
  (s.boneState = .physics ∧ s'.boneState = .drag ∧ e = .pointerDown true)
  ∨ (s.boneState = .recover ∧ s'.boneState = .drag ∧ e = .pointerDown true)
  ∨ (s.boneState = .drag ∧ s'.boneState = .recover ∧ e = .pointerUp
      ∧ s.isDragging = true)
  ∨ (s.boneState = .recover ∧ s'.boneState = .physics
      ∧ ∃ v w, e = .frame v w
          ∧ sqrtLt (sqNorm (scaleV 0.96 v)) 0.05 = true
          ∧ sqrtLt (sqNorm (scaleV 0.92 w)) 0.05 = true)

/-- The controller states reachable from the initial state
`boneState = PHYSICS, isDragging = false` under the three handlers. -/
inductive Reachable : CtrlState → Prop
  | init : Reachable ⟨.physics, false⟩
  | step (s : CtrlState) (e : Event) : Reachable s → Reachable (ctrlStep s e)

/-- In every reachable state, `isDragging` holds exactly in the DRAG state:
the two flags are always written together by the handlers. -/
theorem reachable_isDragging_iff {s : CtrlState} (h : Reachable s) :
    s.isDragging = true ↔ s.boneState = .drag := by
  induction h with
  | init => simp
  | step s e _ ih =>
    cases e with
    | pointerDown hit =>
      cases hit with
      | false => simpa [ctrlStep, onMouseDownState] using ih
      | true => simp [ctrlStep, onMouseDownState]
    | pointerUp =>
      cases hd : s.isDragging with
      | false => simpa [ctrlStep, onMouseUpState, hd] using ih
      | true => simp [ctrlStep, onMouseUpState, hd]
    | frame v w =>
      by_cases hb : s.boneState = .recover
      · have hnd : s.isDragging = false := by
          cases hv : s.isDragging with
          | false => rfl
          | true => rw [ih.mp hv] at hb; cases hb
        unfold ctrlStep recoverTickState
        dsimp only
        rw [if_pos hb]
        split
        · simp [hnd]
        · simpa using ih
      · unfold ctrlStep recoverTickState
        dsimp only
        rw [if_neg hb]
        exact ih

/-- C1 counterexample: the claim "the state never transitions directly from
RECOVER to DRAG" is false: RECOVER (with the drag flag clear) is reachable,
and from it a pointer-down whose head hit-test succeeds moves the controller
straight to DRAG, because `onMouseDown` never checks the current state. -/
theorem C1_recover_to_drag_counterexample :
    Reachable ⟨.recover, false⟩
    ∧ (⟨.recover, false⟩ : CtrlState).boneState = .recover
    ∧ (ctrlStep ⟨.recover, false⟩ (.pointerDown true)).boneState = .drag := by
  refine ⟨?_, rfl, rfl⟩
  have h1 : Reachable (ctrlStep ⟨.physics, false⟩ (.pointerDown true)) :=
    Reachable.step _ _ Reachable.init
  have h2 : Reachable (ctrlStep ⟨.drag, true⟩ .pointerUp) :=
    Reachable.step _ _ h1
  exact h2

/-- C1 (amended): for every reachable state, every state change performed by
the controller is one of PHYSICS → DRAG (pointer-down with successful head
hit), RECOVER → DRAG (pointer-down with successful head hit), DRAG → RECOVER
(pointer-up while dragging), or RECOVER → PHYSICS (frame on which both damped
velocity magnitudes fall below 0.05); the claimed machine is correct except
that it omits the RECOVER → DRAG transition. -/
theorem C1_transitions_amended (s : CtrlState) (e : Event)
    (hr : Reachable s) (hne : (ctrlStep s e).boneState ≠ s.boneState) :
    allowedTransition s (ctrlStep s e) e := by
  unfold allowedTransition
  cases e with
  | pointerDown hit =>
    cases hit with
    | false => simp [ctrlStep, onMouseDownState] at hne
    | true =>
      have hdrag : (ctrlStep s (.pointerDown true)).boneState = .drag := rfl
      rw [hdrag] at hne ⊢
      cases hb : s.boneState with
      | physics => exact Or.inl ⟨rfl, rfl, rfl⟩
      | drag => exact absurd hb.symm hne
      | recover => exact Or.inr (Or.inl ⟨rfl, rfl, rfl⟩)
  | pointerUp =>
    cases hd : s.isDragging with
    | false => simp [ctrlStep, onMouseUpState, hd] at hne
    | true =>
      have hb : s.boneState = .drag := (reachable_isDragging_iff hr).mp hd
      have hrec : ctrlStep s .pointerUp = ⟨.recover, false⟩ := by
        simp [ctrlStep, onMouseUpState, hd]
      rw [hrec]
      exact Or.inr (Or.inr (Or.inl ⟨hb, rfl, rfl, rfl⟩))
  | frame v w =>
    cases hb : s.boneState with
    | physics => simp [ctrlStep, recoverTickState, hb] at hne
    | drag => simp [ctrlStep, recoverTickState, hb] at hne
    | recover =>
      by_cases hv : (sqrtLt (sqNorm (scaleV 0.96 v)) 0.05
          && sqrtLt (sqNorm (scaleV 0.92 w)) 0.05) = true
      · have heq : ctrlStep s (.frame v w) = { s with boneState := .physics } := by
          simp [ctrlStep, recoverTickState, hb, hv]
        rw [heq]
        rcases Bool.and_eq_true_iff.mp hv with ⟨h1, h2⟩
        exact Or.inr (Or.inr (Or.inr ⟨rfl, rfl, v, w, rfl, h1, h2⟩))
      · simp [ctrlStep, recoverTickState, hb, hv] at hne

/-- Closed instance of `C1_transitions_amended`: from the initial PHYSICS
state, a pointer-down over the head changes the state, and the change is an
allowed transition. -/
theorem C1_transitions_witness :
    Reachable ⟨.physics, false⟩
    ∧ (ctrlStep ⟨.physics, false⟩ (.pointerDown true)).boneState
        ≠ (⟨.physics, false⟩ : CtrlState).boneState
    ∧ allowedTransition ⟨.physics, false⟩
        (ctrlStep ⟨.physics, false⟩ (.pointerDown true)) (.pointerDown true) :=
  ⟨Reachable.init, by decide,
    C1_transitions_amended ⟨.physics, false⟩ (.pointerDown true)
      Reachable.init (by decide)⟩


/-! ## C6: DRAG-state floor handling (App.jsx lines 602-634, part_000 lines 530-556) -/

/-- The DRAG branch of `animate`: spring force toward the desired head
position (`stiffness = 600, damping = 50`), with the floor special case:
when `position.y <= minY` (minY = GROUND_Y + bodyHalfHeight), the body is
pinned to the floor with zero vertical velocity and only the horizontal
spring force is integrated. -/
def dragTick (dt desiredX desiredY : ℚ) (b : CharBody) : CharBody :=
  let bodyHalfHeight : ℚ := 0.5
  let minY := GROUND_Y + bodyHalfHeight
  let stiffness : ℚ := 600
  let damping : ℚ := 50
  let currentHeadX := b.pos.x
  let currentHeadY := b.pos.y + HEAD_OFFSET_Y
  let diffX := desiredX - currentHeadX
  let diffY := desiredY - currentHeadY
  if b.pos.y ≤ minY then
    let b1 := { b with pos := { b.pos with y := minY }, vel := { b.vel with y := 0 } }
    let forceX := diffX * stiffness - b1.vel.x * damping
    { b1 with vel := { b1.vel with x := b1.vel.x + forceX / b1.mass * dt } }
  else
    let forceX := diffX * stiffness - b.vel.x * damping
    let forceY := diffY * stiffness - b.vel.y * damping
    { b with vel := { b.vel with
        x := b.vel.x + forceX / b.mass * dt,
        y := b.vel.y + forceY / b.mass * dt } }

/-- C6: in the DRAG state, when the body starts the tick at or below the
floor level `GROUND_Y + 0.5`, the tick pins `position.y` to exactly that
level, zeroes the vertical velocity, and integrates only the horizontal
spring force `F = (target - current) * stiffness - velocity * damping`,
`v += F / mass * dt`, leaving the vertical spring force unapplied;
otherwise both spring components are integrated. -/
theorem C6_drag_floor (dt desiredX desiredY : ℚ) (b : CharBody) :
    (b.pos.y ≤ GROUND_Y + 0.5 →
      (dragTick dt desiredX desiredY b).pos.y = GROUND_Y + 0.5
      ∧ (dragTick dt desiredX desiredY b).vel.y = 0
      ∧ (dragTick dt desiredX desiredY b).vel.x
          = b.vel.x + ((desiredX - b.pos.x) * 600 - b.vel.x * 50) / b.mass * dt
      ∧ (dragTick dt desiredX desiredY b).pos.x = b.pos.x)
    ∧ (¬ b.pos.y ≤ GROUND_Y + 0.5 →
      (dragTick dt desiredX desiredY b).pos = b.pos
      ∧ (dragTick dt desiredX desiredY b).vel.x
          = b.vel.x + ((desiredX - b.pos.x) * 600 - b.vel.x * 50) / b.mass * dt
      ∧ (dragTick dt desiredX desiredY b).vel.y
          = b.vel.y
            + ((desiredY - (b.pos.y + HEAD_OFFSET_Y)) * 600 - b.vel.y * 50)
              / b.mass * dt) := by
  constructor
  · intro h
    unfold dragTick
    rw [if_pos h]
    exact ⟨rfl, rfl, rfl, rfl⟩
  · intro h
    unfold dragTick
    rw [if_neg h]
    exact ⟨rfl, rfl, rfl⟩

/-- Closed instance of `C6_drag_floor`: a body resting exactly at the floor
level gets pinned there with zero vertical velocity. -/
theorem C6_drag_floor_witness :
    (⟨⟨0, -0.5, 0⟩, ⟨1, 1, 0⟩, 1⟩ : CharBody).pos.y ≤ GROUND_Y + 0.5
    ∧ (dragTick 0.016 2 3 ⟨⟨0, -0.5, 0⟩, ⟨1, 1, 0⟩, 1⟩).pos.y = GROUND_Y + 0.5
    ∧ (dragTick 0.016 2 3 ⟨⟨0, -0.5, 0⟩, ⟨1, 1, 0⟩, 1⟩).vel.y = 0 :=
  ⟨by norm_num [GROUND_Y],
    ((C6_drag_floor 0.016 2 3 ⟨⟨0, -0.5, 0⟩, ⟨1, 1, 0⟩, 1⟩).1
      (by norm_num [GROUND_Y])).1,
    ((C6_drag_floor 0.016 2 3 ⟨⟨0, -0.5, 0⟩, ⟨1, 1, 0⟩, 1⟩).1
      (by norm_num [GROUND_Y])).2.1⟩

/-! ## C8: idempotence of the boundary clamps -/

/-- The branch structure of the item clamp on one axis:
`if v < lo then lo else if v > hi then hi else v`. -/
def reboundClamp (v lo hi : ℚ) : ℚ :=
  if v < lo then lo else if v > hi then hi else v

theorem reboundClamp_idem {lo hi : ℚ} (h : lo ≤ hi) (v : ℚ) :
    reboundClamp (reboundClamp v lo hi) lo hi = reboundClamp v lo hi := by
  unfold reboundClamp
  split_ifs <;> first | rfl | linarith

/-- The character clamp only rewrites each position component to its clamped
value (velocity zeroing aside): closed form of its position effect. -/
theorem clampCharacter_pos_eq (halfW halfH halfModelW modelHeight : ℚ)
    (b : CharBody) :
    (clampCharacterWithinBounds halfW halfH halfModelW modelHeight b).pos
      = ⟨clamp b.pos.x (-halfW + halfModelW * 0.5) (halfW - halfModelW * 0.5),
         clamp b.pos.y (GROUND_Y + 0.5) (halfH - modelHeight / 4),
         b.pos.z⟩ := by
  unfold clampCharacterWithinBounds
  dsimp only
  split_ifs with h1 h2 h2 <;> simp_all [not_not, V3.mk.injEq]

/-- Closed form of the item clamp's position effect. -/
theorem clampItem_pos_eq (halfW halfH : ℚ) (it : ItemState) :
    (clampItemWithinBounds halfW halfH it).body.pos
      = ⟨reboundClamp it.body.pos.x (-halfW + it.size.x / 2 * 0.5)
            (halfW - it.size.x / 2 * 0.5),
         reboundClamp it.body.pos.y (GROUND_Y + it.size.y / 2)
            (halfH - it.size.y / 4),
         0⟩ := by
  unfold clampItemWithinBounds reboundClamp
  dsimp only
  split_ifs <;> simp_all

/-- The item clamp does not change the item's size. -/
theorem clampItem_size_eq (halfW halfH : ℚ) (it : ItemState) :
    (clampItemWithinBounds halfW halfH it).size = it.size := rfl

/-- C8: the boundary clamps are idempotent on position: re-running
`clampCharacterWithinBounds` on its own output changes no position component
(for any view bounds), and re-running `clampItemWithinBounds` on its own
output changes no position component whenever the clamp rectangle is
non-degenerate (minX ≤ maxX and minY ≤ maxY, which holds for every item
smaller than the visible region). -/
theorem C8_clamp_idempotent (halfW halfH halfModelW modelHeight ihW ihH : ℚ)
    (b : CharBody) (it : ItemState)
    (hx : -ihW + it.size.x / 2 * 0.5 ≤ ihW - it.size.x / 2 * 0.5)
    (hy : GROUND_Y + it.size.y / 2 ≤ ihH - it.size.y / 4) :
    (clampCharacterWithinBounds halfW halfH halfModelW modelHeight
        (clampCharacterWithinBounds halfW halfH halfModelW modelHeight b)).pos
      = (clampCharacterWithinBounds halfW halfH halfModelW modelHeight b).pos
    ∧ (clampItemWithinBounds ihW ihH (clampItemWithinBounds ihW ihH it)).body.pos
      = (clampItemWithinBounds ihW ihH it).body.pos := by
  constructor
  · rw [clampCharacter_pos_eq, clampCharacter_pos_eq]
    simp [clamp_idem]
  · rw [clampItem_pos_eq, clampItem_size_eq, clampItem_pos_eq]
    dsimp only
    rw [reboundClamp_idem hx, reboundClamp_idem hy]

/-- Closed instance of `C8_clamp_idempotent` at concrete bounds and bodies. -/
theorem C8_clamp_idempotent_witness :
    (-(3 : ℚ) + 1 / 2 * 0.5 ≤ 3 - 1 / 2 * 0.5)
    ∧ (GROUND_Y + 1 / 2 ≤ 2 - 1 / 4)
    ∧ ((clampCharacterWithinBounds 3 2 1 1
          (clampCharacterWithinBounds 3 2 1 1
            ⟨⟨10, -7, 0⟩, ⟨1, 2, 0⟩, 1⟩)).pos
        = (clampCharacterWithinBounds 3 2 1 1 ⟨⟨10, -7, 0⟩, ⟨1, 2, 0⟩, 1⟩).pos
      ∧ (clampItemWithinBounds 3 2
            (clampItemWithinBounds 3 2
              ⟨⟨⟨10, -7, 3⟩, ⟨1, 2, 3⟩, ⟨0, 0, 1⟩, 1, .dynamic⟩,
                ⟨1, 1, 1⟩, false, false, 0, 0, 1000, 100⟩)).body.pos
        = (clampItemWithinBounds 3 2
              ⟨⟨⟨10, -7, 3⟩, ⟨1, 2, 3⟩, ⟨0, 0, 1⟩, 1, .dynamic⟩,
                ⟨1, 1, 1⟩, false, false, 0, 0, 1000, 100⟩).body.pos) :=
  ⟨by norm_num, by norm_num [GROUND_Y],
    C8_clamp_idempotent 3 2 1 1 3 2
      ⟨⟨10, -7, 0⟩, ⟨1, 2, 0⟩, 1⟩
      ⟨⟨⟨10, -7, 3⟩, ⟨1, 2, 3⟩, ⟨0, 0, 1⟩, 1, .dynamic⟩,
        ⟨1, 1, 1⟩, false, false, 0, 0, 1000, 100⟩
      (by norm_num) (by norm_num [GROUND_Y])⟩

/-! ## C9: recoverUpright (App.jsx lines 28-56, part_000 lines 25-48)

The RECOVER-state correction reads the body quaternion, slerps it a
fraction 0.1 toward the identity orientation with THREE.Quaternion.slerp,
writes it back, and scales the linear/angular velocities by 0.96/0.92.
The slerp uses transcendental functions, so this part of the embedding
lives over `ℝ`. -/

/-- 3D vector over ℝ. -/
structure V3R where
  x : ℝ
  y : ℝ
  z : ℝ

/-- Quaternion (THREE.Quaternion component order x, y, z, w). -/
structure QuatR where
  x : ℝ
  y : ℝ
  z : ℝ
  w : ℝ

/-- Componentwise scaling over ℝ (cannon-es `Vec3.scale`). -/
def scaleVR (s : ℝ) (v : V3R) : V3R := ⟨s * v.x, s * v.y, s * v.z⟩

/-- JavaScript `Math.atan2(y, x)`. -/
noncomputable def atan2 (y x : ℝ) : ℝ :=
  if 0 < x then Real.arctan (y / x)
  else if x < 0 then
    (if 0 ≤ y then Real.arctan (y / x) + Real.pi
     else Real.arctan (y / x) - Real.pi)
  else
    (if 0 < y then Real.pi / 2
     else if y < 0 then -(Real.pi / 2)
     else 0)

/-- `Number.EPSILON` (2⁻⁵²), the degenerate-angle threshold in THREE's slerp. -/
noncomputable def numberEpsilon : ℝ := (2 : ℝ) ^ (-(52 : ℤ))

/-- THREE.Quaternion.normalize: divide by the length, or yield the identity
quaternion when the length is zero. -/
noncomputable def quatNormalize (q : QuatR) : QuatR :=
  let l := Real.sqrt (q.x ^ 2 + q.y ^ 2 + q.z ^ 2 + q.w ^ 2)
  if l = 0 then ⟨0, 0, 0, 1⟩
  else ⟨q.x / l, q.y / l, q.z / l, q.w / l⟩

/-- THREE.Quaternion.slerp(qb, t) applied to `q`: shortest-path spherical
interpolation with THREE's degenerate-case branches (t = 0 / t = 1
early-outs, hemisphere flip when the dot product is negative, aligned case
cosHalfTheta ≥ 1, near-aligned linear blend below Number.EPSILON). -/
noncomputable def threeSlerp (q qb : QuatR) (t : ℝ) : QuatR :=
  if t = 0 then q
  else if t = 1 then qb
  else
    let cos0 := q.w * qb.w + q.x * qb.x + q.y * qb.y + q.z * qb.z
    let cur : QuatR := if cos0 < 0 then ⟨-qb.x, -qb.y, -qb.z, -qb.w⟩ else qb
    let cosHalfTheta := if cos0 < 0 then -cos0 else cos0
    if 1 ≤ cosHalfTheta then q
    else
      let sqrSinHalfTheta := 1 - cosHalfTheta * cosHalfTheta
      if sqrSinHalfTheta ≤ numberEpsilon then
        let s := 1 - t
        quatNormalize ⟨s * q.x + t * cur.x, s * q.y + t * cur.y,
                       s * q.z + t * cur.z, s * q.w + t * cur.w⟩
      else
        let sinHalfTheta := Real.sqrt sqrSinHalfTheta
        let halfTheta := atan2 sinHalfTheta cosHalfTheta
        let ratioA := Real.sin ((1 - t) * halfTheta) / sinHalfTheta
        let ratioB := Real.sin (t * halfTheta) / sinHalfTheta
        ⟨q.x * ratioA + cur.x * ratioB, q.y * ratioA + cur.y * ratioB,
         q.z * ratioA + cur.z * ratioB, q.w * ratioA + cur.w * ratioB⟩

/-- The fields of the character body the RECOVER correction touches. -/
structure BodyR where
  pos : V3R
  quat : QuatR
  vel : V3R
  angVel : V3R

/-- `recoverUpright(body)`: slerp the orientation a fraction 0.1 toward the
identity quaternion (built by `setFromEuler(0, 0, 0)`), scale the linear
velocity by 0.96 and the angular velocity by 0.92. -/
noncomputable def recoverUpright (b : BodyR) : BodyR :=
  let uprightQuat : QuatR := ⟨0, 0, 0, 1⟩
  let currentQuat := b.quat
  let newQuat := threeSlerp currentQuat uprightQuat 0.1
  { b with quat := newQuat,
           vel := scaleVR 0.96 b.vel,
           angVel := scaleVR 0.92 b.angVel }

/-- C9: one call of `recoverUpright` modifies only the quaternion (slerped a
fraction 0.1 toward the identity orientation), the linear velocity (scaled
by 0.96) and the angular velocity (scaled by 0.92); the position is left
unchanged. -/
theorem C9_recoverUpright_frame (b : BodyR) :
    (recoverUpright b).pos = b.pos
    ∧ (recoverUpright b).vel = scaleVR 0.96 b.vel
    ∧ (recoverUpright b).angVel = scaleVR 0.92 b.angVel
    ∧ (recoverUpright b).quat = threeSlerp b.quat ⟨0, 0, 0, 1⟩ 0.1 :=
  ⟨rfl, rfl, rfl, rfl⟩

/-! ## C10 and C2: AnimationManager collision detection
(ButtonAddItem.jsx lines 522-789: AnimationManager) -/

/-- The AnimationManager state the collision path consults:
`isAnimationPlaying` (latch) and `collisionCooldown` (seconds remaining). -/
structure AMState where
  isAnimationPlaying : Bool
  collisionCooldown : ℚ
deriving DecidableEq, Repr

/-- `Math.max(size.x, size.y, size.z) / 2`: bounding-sphere radius used by
`checkCollision`. -/
def maxRadius (size : V3) : ℚ := max (max size.x size.y) size.z / 2

/-- `AnimationManager.checkCollision(itemPosition, itemSize,
characterPosition, characterSize)` (ButtonAddItem.jsx lines 769-788): returns
false while an animation is playing, returns false when any argument is
null/undefined (modelled as `Option`), otherwise compares the
center-to-center distance against the exact sum of the two bounding-sphere
radii (no margin coefficient). Total by construction: every input produces
a Boolean, none throws. -/
def checkCollision (st : AMState)
    (itemPosition itemSize characterPosition characterSize : Option V3) : Bool :=
  if st.isAnimationPlaying then false
  else
    match itemPosition, characterPosition, itemSize, characterSize with
    | some ip, some cp, some isz, some csz =>
      let itemRadius := maxRadius isz
      let characterRadius := maxRadius csz
      let minDistance := itemRadius + characterRadius
      sqrtLt (distSq ip cp) minDistance
    | _, _, _, _ => false

/-- An entry of the shared `spawnedItems` list as the disposal and collision
code sees it: its physics body (identified in the world), its mesh
(identified in the scene graph), and the body position and bounding size
the distance tests read. -/
structure Item where
  bodyId : ℕ
  meshId : ℕ
  pos : V3
  size : V3
deriving DecidableEq, Repr

/-- Modelled from the spec: the per-frame collision evaluation that invokes
`checkCollision` on the character and each item and triggers
`playCollisionAnimation` on a hit. The calling loop is not among the
provided sources (only the AnimationManager it calls is); per the spec
contract, "each tick, if not currently playing and cooldown has elapsed,
test distance between character and each item". -/
def collisionTick (st : AMState) (charPos charSize : V3)
    (items : List Item) : Option Item :=
  if st.isAnimationPlaying then none
  else if 0 < st.collisionCooldown then none
  else items.find? fun it =>
    checkCollision st (some it.pos) (some it.size) (some charPos) (some charSize)

/-- C2: a tick can detect a collision (and so trigger the one-shot
animation) only when no collision animation is playing and the cooldown has
elapsed; while `isAnimationPlaying` every collision check returns false (so
at most one collision-triggered animation is in flight); and on live inputs
detection compares the center distance against the exact sum of the two
bounding-sphere radii with no added margin. -/
theorem C2_collision_gating (st : AMState) (charPos charSize : V3)
    (items : List Item) (ip isz cp csz : Option V3) :
    (∀ it : Item, collisionTick st charPos charSize items = some it →
      st.isAnimationPlaying = false ∧ st.collisionCooldown ≤ 0)
    ∧ (st.isAnimationPlaying = true →
        checkCollision st ip isz cp csz = false)
    ∧ (st.isAnimationPlaying = false → ∀ a b c d : V3,
        checkCollision st (some a) (some b) (some c) (some d)
          = sqrtLt (distSq a c) (maxRadius b + maxRadius d)) := by
  refine ⟨?_, ?_, ?_⟩
  · intro it h
    by_cases h1 : st.isAnimationPlaying
    · simp [collisionTick, h1] at h
    · by_cases h2 : 0 < st.collisionCooldown
      · simp [collisionTick, h1, h2] at h
      · exact ⟨by simpa using h1, le_of_not_lt h2⟩
  · intro h
    simp [checkCollision, h]
  · intro h a b c d
    simp [checkCollision, h]

/-- C10: `checkCollision` is total and never reports a collision on missing
input: whenever any of the four arguments is null/undefined it returns
false (instead of throwing), and it returns false whenever an animation is
currently playing. -/
theorem C10_checkCollision_null_safe (st : AMState)
    (ip isz cp csz : Option V3) :
    ((ip = none ∨ isz = none ∨ cp = none ∨ csz = none) →
      checkCollision st ip isz cp csz = false)
    ∧ (st.isAnimationPlaying = true →
      checkCollision st ip isz cp csz = false) := by
  constructor
  · intro h
    cases ip <;> cases isz <;> cases cp <;> cases csz <;>
      simp_all [checkCollision]
  · intro h
    simp [checkCollision, h]

/-! ## C7: item release and throw (ButtonAddItem.jsx lines 361-403) -/

/-- `onMouseUp` of the item drag: switch the body back to DYNAMIC, apply a
throw impulse only when the tracked pointer speed exceeds `minThrowSpeed =
0.015` (the impulse is the tracked velocity scaled by
`clamp(velocity * 14, 1.2, 6)`), impart a random spin, then reset the drag
bookkeeping. `len` stands for `mouseVelocityRef.current.length()` (the
square root of `sqNorm mouseVel`); `r1`, `r2` are the two `Math.random()`
draws. cannon-es `applyImpulse` adds `impulse * invMass` to the linear
velocity; its angular contribution is overwritten immediately after by the
unconditional `angularVelocity.set(...)`, so only the linear part is
modelled. `velocity.scale(1, velocity)` in the source is the identity. -/
def itemOnMouseUp (len : ℚ) (mouseVel : V3) (r1 r2 : ℚ)
    (it : ItemState) : ItemState :=
  let b0 := { it.body with btype := BodyType.dynamic }
  let b1 :=
    if len > 0.015 then
      let strength := clamp (len * 14) 1.2 6
      { b0 with vel := ⟨b0.vel.x + mouseVel.x * strength * (1 / b0.mass),
                        b0.vel.y + mouseVel.y * strength * (1 / b0.mass),
                        b0.vel.z + 0 * (1 / b0.mass)⟩ }
    else b0
  let b2 := { b1 with angVel := ⟨(r1 - 0.5) * 2, (r2 - 0.5) * 2, 0⟩ }
  { it with body := b2,
            isBeingDragged := false,
            desiredX := b2.pos.x,
            desiredY := b2.pos.y }

/-- C7: releasing a dragged item switches its body back to dynamic
simulation; a throw impulse is applied if and only if the tracked release
speed exceeds 0.015, and when applied the velocity gains the release
velocity scaled by `clamp(velocity * 14, 1.2, 6)` (times the inverse mass);
a small random spin is imparted as part of the throw. -/
theorem C7_item_release (len r1 r2 : ℚ) (mouseVel : V3) (it : ItemState) :
    (itemOnMouseUp len mouseVel r1 r2 it).body.btype = BodyType.dynamic
    ∧ ((0.015 : ℚ) < len →
        (itemOnMouseUp len mouseVel r1 r2 it).body.vel
          = ⟨it.body.vel.x + mouseVel.x * clamp (len * 14) 1.2 6 * (1 / it.body.mass),
             it.body.vel.y + mouseVel.y * clamp (len * 14) 1.2 6 * (1 / it.body.mass),
             it.body.vel.z + 0 * (1 / it.body.mass)⟩
        ∧ (itemOnMouseUp len mouseVel r1 r2 it).body.angVel
          = ⟨(r1 - 0.5) * 2, (r2 - 0.5) * 2, 0⟩)
    ∧ (¬ (0.015 : ℚ) < len →
        (itemOnMouseUp len mouseVel r1 r2 it).body.vel = it.body.vel) := by
  unfold itemOnMouseUp
  dsimp only
  by_cases h : (0.015 : ℚ) < len
  · simp only [gt_iff_lt]
    rw [if_pos h]
    exact ⟨rfl, fun _ => ⟨rfl, trivial⟩, fun hc => absurd h hc⟩
  · simp only [gt_iff_lt]
    rw [if_neg h]
    exact ⟨rfl, fun hc => absurd hc h, fun _ => rfl⟩

/-! ## C3: item disposal (Trash.jsx lines 73-113, 148-166;
ButtonAddItem.jsx lines 710-725)

The physics world and the scene graph are modelled as the lists of the
body ids / mesh ids they contain; `world.removeBody(body)` and
`scene.remove(mesh)` / `mesh.parent.remove(mesh)` become `List.erase`. -/

/-- The trash proximity test of `checkTrashCollisions`:
distance from the item body to the trash below `trashRadius + 0.05`
(trashRadius = max extent / 2). -/
def trashHit (trashPos trashSize : V3) (it : Item) : Bool :=
  sqrtLt (distSq it.pos trashPos) (maxRadius trashSize + 0.05)

/-- `window.checkTrashCollisions` (Trash.jsx lines 73-113): iterate the item
list in reverse; every item within the trash radius has its mesh removed
from its scene-graph parent, its body removed from the physics world, and
its record spliced out of the list. The reverse iteration with per-index
splicing is embedded structurally: the tail (higher indices) is processed
first, then the head. -/
def checkTrashCollisions (trashPos trashSize : V3) :
    List Item → List ℕ → List ℕ → List Item × List ℕ × List ℕ
  | [], world, scene => ([], world, scene)
  | it :: rest, world, scene =>
    let r := checkTrashCollisions trashPos trashSize rest world scene
    if trashHit trashPos trashSize it then
      (r.1, (r.2.1).erase it.bodyId, (r.2.2).erase it.meshId)
    else
      (it :: r.1, r.2.1, r.2.2)

/-- `deleteAllItems` (Trash.jsx lines 148-166): iterate a copy of the list,
removing each item's mesh from its parent and its body from the world, then
empty the shared list. -/
def deleteAllItems (items : List Item) (world scene : List ℕ) :
    List Item × List ℕ × List ℕ :=
  (([] : List Item),
   items.foldl (fun acc it => acc.erase it.bodyId) world,
   items.foldl (fun acc it => acc.erase it.meshId) scene)

/-- The disposal effect of `AnimationManager.playCollisionAnimation`
(ButtonAddItem.jsx lines 710-725): remove the collided item's mesh from the
scene and its body from the physics world. -/
def playCollisionAnimationDispose (itemToRemove : Item) (world scene : List ℕ) :
    List ℕ × List ℕ :=
  (world.erase itemToRemove.bodyId, scene.erase itemToRemove.meshId)

/-- Modelled from the spec: the collision-triggered disposal as a whole.
The caller that reacts to a detected character-item collision is not among
the provided sources (only the AnimationManager it invokes is); per the
spec, disposal on collision also splices the item's record from the shared
list, in addition to the mesh and body removal `playCollisionAnimation`
performs. -/
def collisionDispose (it : Item) (items : List Item) (world scene : List ℕ) :
    List Item × List ℕ × List ℕ :=
  let ws := playCollisionAnimationDispose it world scene
  (items.erase it, ws.1, ws.2)

/-! ### Helper lemmas about erase / fold-of-erase -/

theorem notMem_erase_of_count_le_one {a : ℕ} {l : List ℕ}
    (h : l.count a ≤ 1) : a ∉ l.erase a := by
  intro hmem
  have h1 : (l.erase a).count a = l.count a - 1 := List.count_erase_self _ _
  have h2 : 0 < (l.erase a).count a := List.count_pos_iff.mpr hmem
  omega

theorem foldr_condErase_count_le (f : Item → Bool) (g : Item → ℕ) (a : ℕ) :
    ∀ (l : List Item) (w : List ℕ),
      (l.foldr (fun it acc => if f it then acc.erase (g it) else acc) w).count a
        ≤ w.count a := by
  intro l
  induction l with
  | nil => intro w; exact le_rfl
  | cons it rest ih =>
    intro w
    dsimp only [List.foldr]
    by_cases h : f it
    · rw [if_pos h]
      exact le_trans ((List.erase_sublist _ _).count_le _) (ih w)
    · rw [if_neg h]
      exact ih w

theorem foldr_condErase_notMem (f : Item → Bool) (g : Item → ℕ) :
    ∀ (l : List Item) (w : List ℕ) (a : ℕ), w.count a ≤ 1 →
      (∃ j ∈ l, f j = true ∧ g j = a) →
      a ∉ l.foldr (fun it acc => if f it then acc.erase (g it) else acc) w := by
  intro l
  induction l with
  | nil => intro w a _ hex; simp at hex
  | cons it rest ih =>
    intro w a hw hex
    dsimp only [List.foldr]
    rcases hex with ⟨j, hj, hfj, hgj⟩
    rcases List.mem_cons.mp hj with heq | hjr
    · subst heq
      rw [if_pos hfj]
      subst hgj
      exact notMem_erase_of_count_le_one
        (le_trans (foldr_condErase_count_le f g (g j) rest w) hw)
    · by_cases h : f it
      · rw [if_pos h]
        intro hmem
        exact ih w a hw ⟨j, hjr, hfj, hgj⟩ ((List.erase_sublist _ _).subset hmem)
      · rw [if_neg h]
        exact ih w a hw ⟨j, hjr, hfj, hgj⟩

theorem foldl_erase_sublist (g : Item → ℕ) :
    ∀ (l : List Item) (w : List ℕ),
      List.Sublist (l.foldl (fun acc it => acc.erase (g it)) w) w := by
  intro l
  induction l with
  | nil => intro w; exact List.Sublist.refl w
  | cons it rest ih =>
    intro w
    dsimp only [List.foldl]
    exact (ih (w.erase (g it))).trans (List.erase_sublist _ _)

theorem foldl_erase_notMem (g : Item → ℕ) :
    ∀ (l : List Item) (w : List ℕ) (a : ℕ), w.count a ≤ 1 →
      (∃ j ∈ l, g j = a) →
      a ∉ l.foldl (fun acc it => acc.erase (g it)) w := by
  intro l
  induction l with
  | nil => intro w a _ hex; simp at hex
  | cons it rest ih =>
    intro w a hw hex
    dsimp only [List.foldl]
    rcases hex with ⟨j, hj, hgj⟩
    rcases List.mem_cons.mp hj with heq | hjr
    · subst heq
      subst hgj
      intro hmem
      have hmem2 : g j ∈ w.erase (g j) :=
        (foldl_erase_sublist g rest (w.erase (g j))).subset hmem
      exact notMem_erase_of_count_le_one hw hmem2
    · exact ih (w.erase (g it)) a
        (le_trans ((List.erase_sublist _ _).count_le a) hw) ⟨j, hjr, hgj⟩

/-! ### Closed forms of checkTrashCollisions -/

theorem checkTrash_fst (tp ts : V3) (items : List Item) (w s : List ℕ) :
    (checkTrashCollisions tp ts items w s).1
      = items.filter fun it => !(trashHit tp ts it) := by
  induction items with
  | nil => rfl
  | cons it rest ih =>
    cases h : trashHit tp ts it <;>
      simp [checkTrashCollisions, List.filter_cons, h, ih]

theorem checkTrash_world (tp ts : V3) (items : List Item) (w s : List ℕ) :
    (checkTrashCollisions tp ts items w s).2.1
      = items.foldr
          (fun it acc => if trashHit tp ts it then acc.erase it.bodyId else acc)
          w := by
  induction items with
  | nil => rfl
  | cons it rest ih =>
    cases h : trashHit tp ts it <;> simp [checkTrashCollisions, h, ih]

theorem checkTrash_scene (tp ts : V3) (items : List Item) (w s : List ℕ) :
    (checkTrashCollisions tp ts items w s).2.2
      = items.foldr
          (fun it acc => if trashHit tp ts it then acc.erase it.meshId else acc)
          s := by
  induction items with
  | nil => rfl
  | cons it rest ih =>
    cases h : trashHit tp ts it <;> simp [checkTrashCollisions, h, ih]

theorem filter_not_length_add_countP (p : Item → Bool) (l : List Item) :
    (l.filter fun it => !(p it)).length + l.countP p = l.length := by
  induction l with
  | nil => rfl
  | cons it rest ih =>
    cases h : p it <;>
      simp [List.filter_cons, List.countP_cons, h] <;> omega

/-- C3: every disposal path leaves no trace of a removed item. Trash
proximity: each item within the trash radius is gone from the returned list
(whose length drops by exactly the number of removed items), its body id is
gone from the world and its mesh id from the scene. Clear-all: the list
becomes empty and every item's body and mesh are removed. Character
collision: the collided item's record leaves the list (length drops by one)
and its body and mesh are removed. -/
theorem C3_disposal_complete (trashPos trashSize : V3) (items : List Item)
    (world scene : List ℕ) (it : Item)
    (hw : world.Nodup) (hs : scene.Nodup) (hi : items.Nodup) :
    ((it ∈ items ∧ trashHit trashPos trashSize it = true) →
      it ∉ (checkTrashCollisions trashPos trashSize items world scene).1
      ∧ it.bodyId ∉ (checkTrashCollisions trashPos trashSize items world scene).2.1
      ∧ it.meshId ∉ (checkTrashCollisions trashPos trashSize items world scene).2.2)
    ∧ (checkTrashCollisions trashPos trashSize items world scene).1.length
        + items.countP (trashHit trashPos trashSize) = items.length
    ∧ (deleteAllItems items world scene).1 = []
    ∧ (it ∈ items →
        it.bodyId ∉ (deleteAllItems items world scene).2.1
        ∧ it.meshId ∉ (deleteAllItems items world scene).2.2)
    ∧ (it ∈ items →
        it ∉ (collisionDispose it items world scene).1
        ∧ (collisionDispose it items world scene).1.length + 1 = items.length
        ∧ it.bodyId ∉ (collisionDispose it items world scene).2.1
        ∧ it.meshId ∉ (collisionDispose it items world scene).2.2) := by
  have hwc := List.nodup_iff_count_le_one.mp hw
  have hsc := List.nodup_iff_count_le_one.mp hs
  refine ⟨?_, ?_, rfl, ?_, ?_⟩
  · rintro ⟨hmem, hhit⟩
    refine ⟨?_, ?_, ?_⟩
    · rw [checkTrash_fst]
      intro hin
      have hpred := List.of_mem_filter hin
      rw [hhit] at hpred
      simp at hpred
    · rw [checkTrash_world]
      exact foldr_condErase_notMem _ _ items world it.bodyId
        (hwc it.bodyId) ⟨it, hmem, hhit, rfl⟩
    · rw [checkTrash_scene]
      exact foldr_condErase_notMem _ _ items scene it.meshId
        (hsc it.meshId) ⟨it, hmem, hhit, rfl⟩
  · rw [checkTrash_fst]
    exact filter_not_length_add_countP _ items
  · intro hmem
    constructor
    · exact foldl_erase_notMem _ items world it.bodyId
        (hwc it.bodyId) ⟨it, hmem, rfl⟩
    · exact foldl_erase_notMem _ items scene it.meshId
        (hsc it.meshId) ⟨it, hmem, rfl⟩
  · intro hmem
    refine ⟨?_, ?_, ?_, ?_⟩
    · intro hin
      exact ((hi.mem_erase_iff).mp hin).1 rfl
    · have h1 : (items.erase it).length = items.length - 1 :=
        List.length_erase_of_mem hmem
      have h2 : 0 < items.length := List.length_pos_of_mem hmem
      show (items.erase it).length + 1 = items.length
      omega
    · exact notMem_erase_of_count_le_one (hwc it.bodyId)
    · exact notMem_erase_of_count_le_one (hsc it.meshId)

/-- Closed instance of `C3_disposal_complete`: one item sitting on the trash
is removed from a one-element list, from the world and from the scene by
the trash pass, and likewise by the collision path. -/
theorem C3_disposal_complete_witness :
    (⟨5, 7, ⟨0, 0, 0⟩, ⟨1, 1, 1⟩⟩ : Item) ∈ [(⟨5, 7, ⟨0, 0, 0⟩, ⟨1, 1, 1⟩⟩ : Item)]
    ∧ trashHit ⟨0, 0, 0⟩ ⟨1, 1, 1⟩ ⟨5, 7, ⟨0, 0, 0⟩, ⟨1, 1, 1⟩⟩ = true
    ∧ (⟨5, 7, ⟨0, 0, 0⟩, ⟨1, 1, 1⟩⟩ : Item)
        ∉ (checkTrashCollisions ⟨0, 0, 0⟩ ⟨1, 1, 1⟩
            [⟨5, 7, ⟨0, 0, 0⟩, ⟨1, 1, 1⟩⟩] [5] [7]).1
    ∧ (5 : ℕ) ∉ (checkTrashCollisions ⟨0, 0, 0⟩ ⟨1, 1, 1⟩
            [⟨5, 7, ⟨0, 0, 0⟩, ⟨1, 1, 1⟩⟩] [5] [7]).2.1
    ∧ (7 : ℕ) ∉ (checkTrashCollisions ⟨0, 0, 0⟩ ⟨1, 1, 1⟩
            [⟨5, 7, ⟨0, 0, 0⟩, ⟨1, 1, 1⟩⟩] [5] [7]).2.2
    ∧ (⟨5, 7, ⟨0, 0, 0⟩, ⟨1, 1, 1⟩⟩ : Item)
        ∉ (collisionDispose ⟨5, 7, ⟨0, 0, 0⟩, ⟨1, 1, 1⟩⟩
            [⟨5, 7, ⟨0, 0, 0⟩, ⟨1, 1, 1⟩⟩] [5] [7]).1 := by
  have hhit : trashHit ⟨0, 0, 0⟩ ⟨1, 1, 1⟩ ⟨5, 7, ⟨0, 0, 0⟩, ⟨1, 1, 1⟩⟩ = true := by
    norm_num [trashHit, sqrtLt, distSq, maxRadius]
  have hmem : (⟨5, 7, ⟨0, 0, 0⟩, ⟨1, 1, 1⟩⟩ : Item)
      ∈ [(⟨5, 7, ⟨0, 0, 0⟩, ⟨1, 1, 1⟩⟩ : Item)] := List.mem_singleton_self _
  have h := C3_disposal_complete ⟨0, 0, 0⟩ ⟨1, 1, 1⟩
    [⟨5, 7, ⟨0, 0, 0⟩, ⟨1, 1, 1⟩⟩] [5] [7] ⟨5, 7, ⟨0, 0, 0⟩, ⟨1, 1, 1⟩⟩
    (by simp) (by simp) (by simp)
  obtain ⟨h1, _, _, _, h5⟩ := h
  have h1x := h1 ⟨hmem, hhit⟩
  exact ⟨hmem, hhit, h1x.1, h1x.2.1, h1x.2.2, (h5 hmem).1⟩

end HumanExe
